import Mathlib

/-!
Verification of the `dynaphore` library (a dynamically-resizable counting
semaphore written in Go) against its natural-language specification.

The shallow embedding below translates `dynaphore.go`:

* `State` is the pair of local variables `(current, max)` owned by the
  `manager` goroutine (Go `int`, embedded as `Int`).
* `Request` is the kind of message a single iteration of the `manager`
  select statement can service: an acquire (`s.lock`), a release
  (`s.unlock`), a current-count query (`s.current`), or a maximum update
  (`s.max`).
* `service` is one iteration of the `manager` loop body, servicing one
  request: it returns `none` when the corresponding select case cannot
  fire in that state (the acquire case is disabled by setting the local
  `lock` channel to `nil` whenever `current >= max`).
* `Reachable m` are the states the loop can be in when the dynaphore was
  created with `NewDynaphore(m)` (so `current = 0` and `max = m`
  initially, `max` being the first value read from the buffered `s.max`
  channel).
-/

namespace Dynaphore

/-- The mutable state owned by the `manager` goroutine: the local
variables `current` and `max` of `dynaphore.manager` in `dynaphore.go`. -/
structure State where
  current : Int
  max : Int
  deriving DecidableEq, Repr

/-- One kind of request that a single iteration of the `manager` select
can service: a receive on `s.lock` (acquire), a receive on `s.unlock`
(release), a send on `s.current` (query), or a receive on `s.max`
carrying the new maximum (update max). -/
inductive Request where
  | acquire
  | release
  | query
  | setMax (newMax : Int)
  deriving DecidableEq, Repr

/-- One iteration of the `manager` loop in `dynaphore.go`, servicing the
given request.  Returns `none` when the select case for that request is
disabled in state `s`: the acquire case reads from the local variable
`lock`, which the loop sets to `nil` when `current >= max`, and a select
case on a `nil` channel can never fire.  The release case applies
`if current > 0 { current-- }`; the query case replies with `current`
and mutates nothing; the max-update case stores the received value into
`max`. -/
def service (s : State) : Request → Option State
  | Request.acquire =>
      if s.current < s.max then some { s with current := s.current + 1 } else none
  | Request.release =>
      some { s with current := if s.current > 0 then s.current - 1 else s.current }
  | Request.query => some s
  | Request.setMax v => some { s with max := v }

/-- States of the `manager` loop reachable from a dynaphore created by
`NewDynaphore(m)`: the loop starts with `current = 0` and `max = m`, and
each serviced request takes one step of `service`. -/
inductive Reachable (m : Int) : State → Prop where
  | start : Reachable m { current := 0, max := m }
  | step (s : State) (r : Request) (s' : State) :
      Reachable m s → service s r = some s' → Reachable m s'

/-- Servicing any single request preserves nonnegativity of `current`. -/
theorem service_nonneg {s s' : State} {r : Request}
    (h : service s r = some s') (h0 : 0 ≤ s.current) : 0 ≤ s'.current := by
  cases r with
  | acquire =>
      simp only [service] at h
      split at h
      · cases h; simp; omega
      · cases h
  | release =>
      simp only [service] at h
      cases h
      simp only
      split <;> omega
  | query =>
      simp only [service] at h
      cases h; exact h0
  | setMax v =>
      simp only [service] at h
      cases h; exact h0

/-- Invariant: in every reachable state of the arbitration loop,
`current ≥ 0`. -/
theorem Reachable.current_nonneg {m : Int} {s : State}
    (h : Reachable m s) : 0 ≤ s.current := by
  induction h with
  | start => exact le_refl 0
  | step t r t' _ hs ih => exact service_nonneg hs ih

/-- A run of the `manager` loop in which only acquire requests are
pending (no release, query or max-update traffic): with `n` goroutines
blocked sending on `s.lock`, each iteration services one of them while
`current < max` (incrementing `current`); as soon as `current >= max`
the loop sets its local `lock` channel to `nil`, no select case can
fire, and the remaining senders stay blocked.  Returns the final state
and the number of acquires actually granted. -/
def grantAcquires : State → Nat → State × Nat
  | s, 0 => (s, 0)
  | s, n + 1 =>
      if s.current < s.max then
        let r := grantAcquires { s with current := s.current + 1 } n
        (r.1, r.2 + 1)
      else (s, 0)

theorem grantAcquires_stuck (s : State) (n : Nat)
    (h : ¬s.current < s.max) : grantAcquires s n = (s, 0) := by
  cases n with
  | zero => rfl
  | succ k => simp [grantAcquires, h]

theorem grantAcquires_count (newMax : Int) (N : Nat) :
    ∀ cur : Int, cur < newMax →
      ((grantAcquires (State.mk cur newMax) N).2 : Int) =
        min (N : Int) (newMax - cur) := by
  induction N with
  | zero =>
      intro cur h
      simp only [grantAcquires, Nat.cast_zero]
      omega
  | succ k ih =>
      intro cur h
      simp only [grantAcquires]
      rw [if_pos h]
      by_cases h2 : cur + 1 < newMax
      · have ihh := ih (cur + 1) h2
        dsimp only
        push_cast
        push_cast at ihh
        omega
      · rw [grantAcquires_stuck (State.mk (cur + 1) newMax) k h2]
        dsimp only
        push_cast
        omega

/-- The request trace of `Down()` in `dynaphore.go`: one send on
`s.unlock`, i.e. exactly one release request delivered to the manager. -/
def downRequests : List Request := [Request.release]

/-- The request trace eventually produced by the helper goroutine that
`DownChan(l)` spawns: it first evaluates `<-l`, which succeeds exactly
when the handle is ready (`UpChan`'s goroutine has acquired its lock and
closed `l`), and then calls `s.Down()`.  `none` models the goroutine
still blocked on `<-l`; once the receive succeeds, the goroutine's
remaining body is exactly a `Down()` call. -/
def downChanRequests (ready : Bool) : Option (List Request) :=
  if ready then some downRequests else none

/-- Folding `service` over a list of requests delivered in order. -/
def serviceAll (s : State) : List Request → Option State
  | [] => some s
  | r :: rs => (service s r).bind fun s' => serviceAll s' rs

/-- Which channel fields of the `dynaphore` struct are initialized
(non-`nil`).  The struct literal in `NewDynaphore` calls `make` for
`lock`, `unlock` and `max` only; the `current` field is omitted, so it
keeps Go's zero value for a channel type: `nil`. -/
structure Channels where
  lockCh : Bool
  unlockCh : Bool
  maxCh : Bool
  currentCh : Bool
  deriving DecidableEq, Repr

/-- The channel set of the `dynaphore` struct built by `NewDynaphore`
in `dynaphore.go` (the `current` field is never assigned). -/
def newDynaphoreChannels : Channels :=
  { lockCh := true, unlockCh := true, maxCh := true, currentCh := false }

/-- One iteration of the `manager` select, also accounting for which
channels of the struct are non-`nil`: a select case on a `nil` channel
can never fire, so the query case `s.current <- current` can only be
taken when the `current` channel field is initialized. -/
def serviceInLoop (ch : Channels) (s : State) : Request → Option State
  | Request.query =>
      if ch.currentCh then service s Request.query else none
  | r => service s r

/-- Whether a call to `Current()` in `dynaphore.go` can return: its body
is `return <-s.current`, and a receive from a `nil` channel blocks
forever. -/
def currentCallReturns (ch : Channels) : Bool := ch.currentCh

/-- C1: an acquire request is serviced only when `current < max` (if
`current ≥ max` the acquire select case is disabled, so it cannot produce
a successor state), and immediately after any serviced acquire,
`current ≤ max` holds for the `max` in force at that instant. -/
theorem C1_acquire_gated (s s' : State)
    (h : service s Request.acquire = some s') :
    s.current < s.max ∧ s'.current ≤ s'.max := by
  simp only [service] at h
  split at h
  · cases h
    constructor
    · assumption
    · simp only
      omega
  · cases h

theorem C1_acquire_gated_witness :
    (State.mk 0 1).current < (State.mk 0 1).max ∧
      (State.mk 1 1).current ≤ (State.mk 1 1).max :=
  C1_acquire_gated (State.mk 0 1) (State.mk 1 1) (by decide)

/-- C2: every reachable state of the arbitration loop has `current ≥ 0`,
and servicing a release request while `current = 0` leaves the state
unchanged (the release is silently absorbed). -/
theorem C2_nonneg_release_absorbed (m : Int) (s : State)
    (h : Reachable m s) :
    0 ≤ s.current ∧
      (s.current = 0 → service s Request.release = some s) := by
  refine ⟨h.current_nonneg, fun h0 => ?_⟩
  cases s with
  | mk c mx =>
    simp only at h0
    subst h0
    simp [service]

theorem C2_nonneg_release_absorbed_witness :
    0 ≤ (State.mk 0 0).current ∧
      ((State.mk 0 0).current = 0 →
        service (State.mk 0 0) Request.release = some (State.mk 0 0)) :=
  C2_nonneg_release_absorbed 0 (State.mk 0 0) Reachable.start

/-- C5: each serviced request moves `current` by the exact specified
delta: a serviced acquire (which requires `current < max` and so can only
produce a successor then) increments `current` by exactly 1, and a
serviced release with `current > 0` decrements it by exactly 1. -/
theorem C5_unit_delta (s : State) :
    (∀ s', service s Request.acquire = some s' →
      s'.current = s.current + 1) ∧
    (s.current > 0 → ∀ s', service s Request.release = some s' →
      s'.current = s.current - 1) := by
  constructor
  · intro s' h
    simp only [service] at h
    split at h
    · cases h; rfl
    · cases h
  · intro hpos s' h
    simp only [service] at h
    cases h
    simp [hpos]

theorem C5_unit_delta_witness :
    (State.mk 2 2).current = (State.mk 1 2).current + 1 ∧
      (State.mk 0 2).current = (State.mk 1 2).current - 1 :=
  ⟨(C5_unit_delta (State.mk 1 2)).1 (State.mk 2 2) (by decide),
   (C5_unit_delta (State.mk 1 2)).2 (by decide) (State.mk 0 2) (by decide)⟩

/-- C6: servicing a maximum-update request stores exactly the delivered
value into `max` and leaves `current` unchanged, for every delivered
value (including negative ones) and every prior state. -/
theorem C6_setMax_frame (s : State) (v : Int) :
    service s (Request.setMax v) = some (State.mk s.current v) := rfl

/-- C8: while `max = 0`, the acquire select case is disabled in every
reachable state (since `current ≥ 0 = max`), so no acquire request can be
serviced until `max` is raised. -/
theorem C8_zero_max_blocks (m : Int) (s : State)
    (h : Reachable m s) (hm : s.max = 0) :
    service s Request.acquire = none := by
  have h0 := h.current_nonneg
  simp only [service, hm]
  split
  · omega
  · rfl

theorem C8_zero_max_blocks_witness :
    (State.mk 0 0).max = 0 ∧
      service (State.mk 0 0) Request.acquire = none :=
  ⟨rfl, C8_zero_max_blocks 0 (State.mk 0 0) Reachable.start rfl⟩

/-- C10: while a negative `max` is in force, no acquire request can be
serviced in any reachable state (because `current ≥ 0 > max` keeps the
acquire case disabled), and the acquire case behaves exactly as it would
with `max = 0`. -/
theorem C10_negative_max_blocks (m : Int) (s : State)
    (h : Reachable m s) (hm : s.max < 0) :
    service s Request.acquire = none ∧
      service s Request.acquire =
        service (State.mk s.current 0) Request.acquire := by
  have h0 := h.current_nonneg
  have h1 : service s Request.acquire = none := by
    simp only [service]
    split
    · omega
    · rfl
  have h2 : service (State.mk s.current 0) Request.acquire = none := by
    simp only [service]
    split
    · simp only at *
      omega
    · rfl
  exact ⟨h1, h1.trans h2.symm⟩

theorem C10_negative_max_blocks_witness :
    (State.mk 0 (-1)).max < 0 ∧
      (service (State.mk 0 (-1)) Request.acquire = none ∧
        service (State.mk 0 (-1)) Request.acquire =
          service (State.mk 0 0) Request.acquire) :=
  ⟨by decide,
   C10_negative_max_blocks (-1) (State.mk 0 (-1)) Reachable.start (by decide)⟩

/-- C3: if a maximum-update raises `max` to `newMax > current` while `N`
goroutines are blocked on acquire, then the loop — servicing only those
pending acquires, with no release occurring — grants permits to exactly
`min(N, newMax - current)` of them. -/
theorem C3_monotonic_unblock (s : State) (newMax : Int) (N : Nat)
    (h : s.current < newMax) :
    ∃ s', service s (Request.setMax newMax) = some s' ∧
      s'.current = s.current ∧
      ((grantAcquires s' N).2 : Int) = min (N : Int) (newMax - s.current) :=
  ⟨State.mk s.current newMax, rfl, rfl,
    grantAcquires_count newMax N s.current h⟩

theorem C3_monotonic_unblock_witness :
    (State.mk 0 5).current < 2 ∧
      ∃ s', service (State.mk 0 5) (Request.setMax 2) = some s' ∧
        s'.current = (State.mk 0 5).current ∧
        ((grantAcquires s' 3).2 : Int) =
          min ((3 : Nat) : Int) (2 - (State.mk 0 5).current) :=
  ⟨by decide, C3_monotonic_unblock (State.mk 0 5) 2 3 (by decide)⟩

/-- C7: calling `DownChan` on a handle that is already ready behaves as
an immediate `Down()`: the helper goroutine's `<-l` succeeds at once and
its remaining trace is exactly `Down()`'s trace, which consists of one
release request, whose effect on the loop state is exactly that of
servicing a single release. -/
theorem C7_downChan_ready_is_down (s : State) :
    downChanRequests true = some downRequests ∧
      downRequests.length = 1 ∧
      serviceAll s downRequests = service s Request.release := by
  refine ⟨rfl, rfl, ?_⟩
  simp [serviceAll, service]

/-- C9: the `current` field of the struct built by `NewDynaphore` is
left `nil`, so the manager's query-reply select case can never fire in
any state, and a `Current()` call (a receive from that `nil` channel)
never returns. -/
theorem C9_current_channel_nil :
    newDynaphoreChannels.currentCh = false ∧
      (∀ s : State,
        serviceInLoop newDynaphoreChannels s Request.query = none) ∧
      currentCallReturns newDynaphoreChannels = false :=
  ⟨rfl, fun _ => rfl, rfl⟩

/-- C4 (code bug): the claim says every `Current()` call returns the
loop's `current` value, but on the code a `Current()` call evaluates
`<-s.current` with `s.current = nil` (never initialized by
`NewDynaphore`), so it blocks forever and the loop's query branch is
never taken. -/
theorem C4_current_never_returns (s : State) :
    currentCallReturns newDynaphoreChannels = false ∧
      serviceInLoop newDynaphoreChannels s Request.query = none :=
  ⟨rfl, rfl⟩

end Dynaphore
